import Mathlib

/-!
Verification of the custom PyQt5 title-bar application
(`src/custom-pyqt5-titlebar.py`).

The interaction logic is shallowly embedded: Qt points and rectangles
become records of integers, the mutable widget attributes become fields of
explicit state records, and each event handler becomes a pure function on
those states.  Qt platform primitives that the handlers call
(`QRect.setWidth/setLeft/...`, `QWidget.showMaximized/showFullScreen/
showNormal/close/move` and the `isMaximized`/`isFullScreen` flags) are
modelled after their documented Qt semantics:

* `QRect.setLeft`/`setTop` move one edge and keep the opposite edge fixed
  (so they change the width/height), while `setWidth`/`setHeight` keep the
  left/top edge fixed;
* `QWidget.showMaximized` sets the Maximized window-state flag and clears
  FullScreen and Minimized; `showFullScreen` sets FullScreen and clears
  Maximized and Minimized; `showNormal` clears all three (Qt 5
  `qwidget.cpp`).
-/

/-- A `QPoint`: integer x/y coordinates. -/
structure Point where
  x : Int
  y : Int
deriving DecidableEq, Repr

/-- A `QRect`, represented by its left/top corner and its width/height.
`left + width` is the (exclusive) right edge, so Qt's inclusive-right
`±1` convention cancels out of every operation used by the program. -/
structure Rect where
  left : Int
  top : Int
  width : Int
  height : Int
deriving DecidableEq, Repr

/-- `QRect.setWidth`: keeps the left edge, moves the right edge. -/
def Rect.setWidth (r : Rect) (w : Int) : Rect :=
  { r with width := w }

/-- `QRect.setHeight`: keeps the top edge, moves the bottom edge. -/
def Rect.setHeight (r : Rect) (h : Int) : Rect :=
  { r with height := h }

/-- `QRect.setLeft`: moves the left edge, keeps the right edge fixed
(the width shrinks or grows accordingly). -/
def Rect.setLeft (r : Rect) (l : Int) : Rect :=
  { r with left := l, width := r.left + r.width - l }

/-- `QRect.setTop`: moves the top edge, keeps the bottom edge fixed. -/
def Rect.setTop (r : Rect) (t : Int) : Rect :=
  { r with top := t, height := r.top + r.height - t }

/-- The eight resize-direction strings `_get_resize_direction` can
produce ("left", "right", ..., "bottom-right"); `None` is modelled by
`Option Dir`. -/
inductive Dir where
  | left
  | right
  | top
  | bottom
  | topLeft
  | topRight
  | bottomLeft
  | bottomRight
deriving DecidableEq, Repr

/-- The Python value of each direction (the strings compared by
`"..." in self._resize_direction`). -/
def Dir.dirStr : Dir → String
  | .left => "left"
  | .right => "right"
  | .top => "top"
  | .bottom => "bottom"
  | .topLeft => "top-left"
  | .topRight => "top-right"
  | .bottomLeft => "bottom-left"
  | .bottomRight => "bottom-right"

/-- Python `"left" in dir`: "left" is a substring of exactly
"left", "top-left" and "bottom-left". -/
def Dir.hasLeft : Dir → Bool
  | .left | .topLeft | .bottomLeft => true
  | _ => false

/-- Python `"right" in dir`: substring of "right", "top-right",
"bottom-right". -/
def Dir.hasRight : Dir → Bool
  | .right | .topRight | .bottomRight => true
  | _ => false

/-- Python `"top" in dir`: substring of "top", "top-left", "top-right". -/
def Dir.hasTop : Dir → Bool
  | .top | .topLeft | .topRight => true
  | _ => false

/-- Python `"bottom" in dir`: substring of "bottom", "bottom-left",
"bottom-right". -/
def Dir.hasBottom : Dir → Bool
  | .bottom | .bottomLeft | .bottomRight => true
  | _ => false

/-- `self._edge_margin = 8` set in `MainWindow.__init__`. -/
def edgeMargin : Int := 8

/-- `self.minimumWidth()` after `self.setMinimumSize(800, 600)`. -/
def minimumWidth : Int := 800

/-- `self.minimumHeight()` after `self.setMinimumSize(800, 600)`. -/
def minimumHeight : Int := 600

/-- `MainWindow._get_resize_direction(pos)`: hit-tests the local cursor
position against the widget rect of width `w` and height `h` with the
given edge margin, returning the matched direction or `none`.  The four
proximity tests and the if/elif chain follow the source line by line. -/
def getResizeDirection (margin w h : Int) (pos : Point) : Option Dir :=
  let nearLeft : Prop := pos.x ≤ margin
  let nearRight : Prop := pos.x ≥ w - margin
  let nearTop : Prop := pos.y ≤ margin
  let nearBottom : Prop := pos.y ≥ h - margin
  if nearLeft ∧ nearTop then some .topLeft
  else if nearLeft ∧ nearBottom then some .bottomLeft
  else if nearRight ∧ nearTop then some .topRight
  else if nearRight ∧ nearBottom then some .bottomRight
  else if nearLeft then some .left
  else if nearRight then some .right
  else if nearTop then some .top
  else if nearBottom then some .bottom
  else none

/-- `MainWindow._perform_resize(global_pos)`, abstracted over the mutable
attributes it reads and writes: the active `_resize_direction` `dir`, the
anchor `_drag_pos` `dragPos`, and the current geometry `rect`.  Returns
the geometry passed to `setGeometry` together with the updated
`_drag_pos` (which the source sets to `global_pos`).  The four `if`s run
in source order on the same rect; `"<edge>" in self._resize_direction`
is the substring test `Dir.has*`. -/
def performResize (dir : Dir) (dragPos : Point) (rect : Rect) (globalPos : Point) :
    Rect × Point :=
  let delta : Point := ⟨globalPos.x - dragPos.x, globalPos.y - dragPos.y⟩
  let r1 := if dir.hasRight then rect.setWidth (max (rect.width + delta.x) minimumWidth) else rect
  let r2 := if dir.hasLeft then r1.setLeft (r1.left + delta.x) else r1
  let r3 := if dir.hasBottom then r2.setHeight (max (r2.height + delta.y) minimumHeight) else r2
  let r4 := if dir.hasTop then r3.setTop (r3.top + delta.y) else r3
  (r4, globalPos)

/-- One resize session: the direction is fixed, each successive move event
feeds the current global position into `_perform_resize`, threading the
geometry and the `_drag_pos` anchor. -/
def performResizeSeq (dir : Dir) (st : Rect × Point) (moves : List Point) :
    Rect × Point :=
  moves.foldl (fun acc g => performResize dir acc.2 acc.1 g) st

/-- The Qt cursor shapes used by `_update_cursor`. -/
inductive CursorShape where
  | arrow
  | sizeHor
  | sizeVer
  | sizeFDiag
  | sizeBDiag
deriving DecidableEq, Repr

/-- `MainWindow._update_cursor(pos)`: maps the direction at the local
position to a cursor shape (`else` covers `none`). -/
def updateCursor (w h : Int) (pos : Point) : CursorShape :=
  match getResizeDirection edgeMargin w h pos with
  | some .left | some .right => .sizeHor
  | some .top | some .bottom => .sizeVer
  | some .topLeft | some .bottomRight => .sizeFDiag
  | some .topRight | some .bottomLeft => .sizeBDiag
  | none => .arrow

/-- Mouse buttons distinguished by `event.button() == Qt.LeftButton`. -/
inductive MouseButton where
  | leftButton
  | rightButton
  | middleButton
deriving DecidableEq, Repr

/-- The mutable state of `MainWindow` that the frame event handlers touch:
`_drag_pos`, `_resizing`, `_resize_direction`, the window geometry, and
the current cursor shape. -/
structure MWState where
  dragPos : Option Point
  resizing : Bool
  resizeDir : Option Dir
  rect : Rect
  cursor : CursorShape
deriving DecidableEq, Repr

/-- `MainWindow.__init__`: `_drag_pos = None`, `_resizing = False`,
`_resize_direction = None`; the geometry is whatever Qt assigns, at least
the 800x600 minimum — a concrete representative is used here. -/
def initMW : MWState :=
  { dragPos := none
  , resizing := false
  , resizeDir := none
  , rect := ⟨0, 0, 800, 600⟩
  , cursor := .arrow }

/-- `MainWindow.mousePressEvent(event)`: only a left-button press does
anything; it records the global position in `_drag_pos`, hit-tests the
local position (against `self.rect()`, whose size is the geometry's) into
`_resize_direction`, and sets `_resizing = True` when the direction is
truthy (a non-`None` string); otherwise `_resizing` keeps its old value. -/
def mainMousePress (s : MWState) (button : MouseButton) (globalPos localPos : Point) :
    MWState :=
  if button = .leftButton then
    let d := getResizeDirection edgeMargin s.rect.width s.rect.height localPos
    { s with dragPos := some globalPos
           , resizeDir := d
           , resizing := if d.isSome then true else s.resizing }
  else s

/-- `MainWindow.mouseMoveEvent(event)`: guarded by
`if self._resizing and self._resize_direction`.  Inside the guard it runs
`_perform_resize(event.globalPos())` then `_update_cursor(event.pos())`.
The second component records a raised Python exception: subtracting
`self._drag_pos = None` inside `_perform_resize` would raise a
`TypeError` (unreachable in the program, since `_resizing` is only set
after `_drag_pos`). -/
def mainMouseMove (s : MWState) (globalPos localPos : Point) :
    MWState × Option String :=
  if s.resizing && s.resizeDir.isSome then
    match s.resizeDir with
    | some d =>
      match s.dragPos with
      | some dp =>
        let rp := performResize d dp s.rect globalPos
        ({ s with rect := rp.1
                , dragPos := some rp.2
                , cursor := updateCursor rp.1.width rp.1.height localPos }, none)
      | none => (s, some "TypeError")
    | none => (s, some "unreachable")
  else (s, none)

/-- `MainWindow.mouseReleaseEvent(event)`: unconditionally sets
`_resizing = False`, `_resize_direction = None` and the cursor to
`Qt.ArrowCursor`; the button carried by the event is never inspected. -/
def mainMouseRelease (s : MWState) (_button : MouseButton) : MWState :=
  { s with resizing := false, resizeDir := none, cursor := .arrow }

/-- The platform window the title bar drives through `self.parent()`:
its position, the Qt window-state flags, and whether `close()` ran. -/
structure WinState where
  x : Int
  y : Int
  maximized : Bool
  fullscreen : Bool
  minimized : Bool
  closed : Bool
deriving DecidableEq, Repr

/-- Qt `QWidget.showMaximized`: sets the Maximized window-state flag and
clears Minimized and FullScreen (Qt 5 `qwidget.cpp`). -/
def WinState.showMaximized (w : WinState) : WinState :=
  { w with maximized := true, fullscreen := false, minimized := false }

/-- Qt `QWidget.showFullScreen`: sets the FullScreen window-state flag
and clears Minimized and Maximized (Qt 5 `qwidget.cpp`). -/
def WinState.showFullScreen (w : WinState) : WinState :=
  { w with fullscreen := true, maximized := false, minimized := false }

/-- Qt `QWidget.showNormal`: clears Minimized, Maximized and FullScreen. -/
def WinState.showNormal (w : WinState) : WinState :=
  { w with maximized := false, fullscreen := false, minimized := false }

/-- Qt `QWidget.showMinimized`: sets the Minimized window-state flag. -/
def WinState.showMinimized (w : WinState) : WinState :=
  { w with minimized := true }

/-- Qt `QWidget.close`: closes the window. -/
def WinState.close (w : WinState) : WinState :=
  { w with closed := true }

/-- Qt `QWidget.move(x, y)`. -/
def WinState.move (w : WinState) (nx ny : Int) : WinState :=
  { w with x := nx, y := ny }

/-- The state touched by `CustomTitleBar`: its press anchor `self.start`,
the icon file currently set on the maximize and fullscreen buttons, and
the parent window. -/
structure AppState where
  start : Option Point
  maxIcon : String
  fsIcon : String
  win : WinState
deriving DecidableEq, Repr

/-- `CustomTitleBar.__init__` + `MainWindow.__init__`: `self.start = None`,
the buttons carry the icons given in `_setup_buttons`, and the window is
in the normal state. -/
def initApp : AppState :=
  { start := none
  , maxIcon := "Images\\maximize-button-icon-white.png"
  , fsIcon := "Images\\fullscreen-button-icon-white.png"
  , win := { x := 0, y := 0, maximized := false, fullscreen := false
           , minimized := false, closed := false } }

/-- The maximize button shows its "active/restore" variant exactly when
its icon is the `normal-button` file set by the maximize branch. -/
def maxIconActive (s : AppState) : Bool :=
  s.maxIcon == "normal-button-icon-white.png"

/-- The fullscreen button shows its "active/exit" variant exactly when
its icon is the `end-fullscreen-button` file set by the fullscreen
branch. -/
def fsIconActive (s : AppState) : Bool :=
  s.fsIcon == "end-fullscreen-button-icon-white.png"

/-- `CustomTitleBar.closeParent`: `self.parent().close()`. -/
def closeParent (s : AppState) : AppState :=
  { s with win := s.win.close }

/-- `CustomTitleBar.showParentMinimized`: `self.parent().showMinimized()`. -/
def showParentMinimized (s : AppState) : AppState :=
  { s with win := s.win.showMinimized }

/-- `CustomTitleBar.showParentMaximized`: when the parent is maximized,
reset both button icons and `showNormal()`; otherwise set the maximize
button to its restore variant and `showMaximized()`. -/
def showParentMaximized (s : AppState) : AppState :=
  if s.win.maximized then
    { s with maxIcon := "maximize-button-icon-white.png"
           , fsIcon := "fullscreen-button-icon-white.png"
           , win := s.win.showNormal }
  else
    { s with maxIcon := "normal-button-icon-white.png"
           , win := s.win.showMaximized }

/-- `CustomTitleBar.showParentFullScreen`: when the parent is fullscreen,
reset both button icons and `showNormal()`; otherwise set the fullscreen
button to its exit variant and `showFullScreen()`. -/
def showParentFullScreen (s : AppState) : AppState :=
  if s.win.fullscreen then
    { s with fsIcon := "fullscreen-button-icon-white.png"
           , maxIcon := "maximize-button-icon-white.png"
           , win := s.win.showNormal }
  else
    { s with fsIcon := "end-fullscreen-button-icon-white.png"
           , win := s.win.showFullScreen }

/-- The close button's clicked handler:
`_create_button('Images\\close-button-icon-white.png', self.closeParent, ...)`
connects `clicked` to `closeParent`. -/
def closeButtonCallback : AppState → AppState := closeParent

/-- The File-menu quit action's handler:
`self.action_quit.triggered.connect(self.closeParent)`. -/
def actionQuitCallback : AppState → AppState := closeParent

/-- `CustomTitleBar.mousePressEvent(event)`:
`self.start = event.globalPos()`. -/
def tbMousePress (s : AppState) (globalPos : Point) : AppState :=
  { s with start := some globalPos }

/-- Result of one `CustomTitleBar.mouseMoveEvent`: the state after the
handler (every mutation made before an exception persists, as in
Python), how many times `showNormal()` ran during the event, and the
exception raised, if any. -/
structure TBMoveResult where
  state : AppState
  showNormalCalls : Nat
  error : Option String
deriving DecidableEq, Repr

/-- `CustomTitleBar.mouseMoveEvent(event)`: if the parent is maximized or
fullscreen, first `showNormal()` and reset both button icons (note the
source resets them with path-less filenames here); then compute
`delta = event.globalPos() - self.start` — a `TypeError` when
`self.start` is `None` — move the parent by the delta and set
`self.start = event.globalPos()`. -/
def tbMouseMove (s : AppState) (globalPos : Point) : TBMoveResult :=
  let restored :=
    if s.win.maximized || s.win.fullscreen then
      ({ s with win := s.win.showNormal
              , maxIcon := "maximize-button-icon-white.png"
              , fsIcon := "fullscreen-button-icon-white.png" }, 1)
    else (s, 0)
  let s1 := restored.1
  match s1.start with
  | none => { state := s1, showNormalCalls := restored.2, error := some "TypeError" }
  | some st =>
    let dx := globalPos.x - st.x
    let dy := globalPos.y - st.y
    { state := { s1 with win := s1.win.move (s1.win.x + dx) (s1.win.y + dy)
                       , start := some globalPos }
    , showNormalCalls := restored.2
    , error := none }

/-- One step of a title-bar drag: feed a move event and accumulate the
number of `showNormal()` calls. -/
def tbDragStep (acc : AppState × Nat) (g : Point) : AppState × Nat :=
  let r := tbMouseMove acc.1 g
  (r.state, acc.2 + r.showNormalCalls)

/-- A title-bar drag: a press at `pressPos` followed by the given move
events; returns the final state and the total number of `showNormal()`
calls issued across the drag. -/
def tbDrag (s : AppState) (pressPos : Point) (moves : List Point) :
    AppState × Nat :=
  moves.foldl tbDragStep (tbMousePress s pressPos, 0)

/-- The operations a user can trigger on the chrome after construction:
the four title-bar buttons and title-bar presses/moves. -/
inductive ChromeOp where
  | clickMaximize
  | clickFullScreen
  | clickMinimize
  | clickClose
  | tbPress (g : Point)
  | tbMove (g : Point)
deriving DecidableEq, Repr

/-- Apply one chrome operation (a title-bar move keeps the post-handler
state whether or not the handler raised). -/
def applyChromeOp (s : AppState) : ChromeOp → AppState
  | .clickMaximize => showParentMaximized s
  | .clickFullScreen => showParentFullScreen s
  | .clickMinimize => showParentMinimized s
  | .clickClose => closeParent s
  | .tbPress g => tbMousePress s g
  | .tbMove g => (tbMouseMove s g).state

/-- Run a sequence of chrome operations from a start state. -/
def runChromeOps (s : AppState) (ops : List ChromeOp) : AppState :=
  ops.foldl applyChromeOp s

/-- Full characterization of `_get_resize_direction` on a window of width
`w` and height `h` with margin `margin`: each of the nine outcomes holds
exactly when the stated combination of the four edge-proximity conditions
does, so exactly one outcome applies to every position. -/
def cornerCharacterization (margin w h : Int) (pos : Point) : Prop :=
  (getResizeDirection margin w h pos = some Dir.topLeft ↔
     pos.x ≤ margin ∧ pos.y ≤ margin) ∧
  (getResizeDirection margin w h pos = some Dir.bottomLeft ↔
     pos.x ≤ margin ∧ pos.y ≥ h - margin) ∧
  (getResizeDirection margin w h pos = some Dir.topRight ↔
     pos.x ≥ w - margin ∧ pos.y ≤ margin) ∧
  (getResizeDirection margin w h pos = some Dir.bottomRight ↔
     pos.x ≥ w - margin ∧ pos.y ≥ h - margin) ∧
  (getResizeDirection margin w h pos = some Dir.left ↔
     pos.x ≤ margin ∧ ¬pos.y ≤ margin ∧ ¬pos.y ≥ h - margin) ∧
  (getResizeDirection margin w h pos = some Dir.right ↔
     pos.x ≥ w - margin ∧ ¬pos.y ≤ margin ∧ ¬pos.y ≥ h - margin) ∧
  (getResizeDirection margin w h pos = some Dir.top ↔
     pos.y ≤ margin ∧ ¬pos.x ≤ margin ∧ ¬pos.x ≥ w - margin) ∧
  (getResizeDirection margin w h pos = some Dir.bottom ↔
     pos.y ≥ h - margin ∧ ¬pos.x ≤ margin ∧ ¬pos.x ≥ w - margin) ∧
  (getResizeDirection margin w h pos = none ↔
     ¬pos.x ≤ margin ∧ ¬pos.x ≥ w - margin ∧ ¬pos.y ≤ margin ∧ ¬pos.y ≥ h - margin)

/-- Claim C1, counterexample: the per-corner biconditional fails for a
window no taller than twice the margin.  On a 20x10 window with margin 8,
position (4,4) satisfies both adjacent conditions of the bottom-left
corner (4 ≤ 8 and 4 ≥ 10 - 8), yet `_get_resize_direction` returns
"top-left", not "bottom-left": the top-left branch fires first because
(4,4) is simultaneously near the top. -/
theorem classify_corner_iff_counterexample :
    ((4 : Int) ≤ 8 ∧ (4 : Int) ≥ 10 - 8) ∧
    getResizeDirection 8 20 10 ⟨4, 4⟩ = some Dir.topLeft ∧
    getResizeDirection 8 20 10 ⟨4, 4⟩ ≠ some Dir.bottomLeft := by decide

/-- Claim C1 (amended): on a window wider and taller than twice the edge
margin — always the case in this program, whose margin is 8 and whose
minimum size is 800x600 — `_get_resize_direction` returns exactly one of
the nine outcomes, returns a corner direction iff both corresponding
adjacent proximity conditions hold, returns `none` iff no condition
holds, and classifies (4,4) on an 800x600 window with margin 8 as
top-left. -/
theorem classify_corner_iff (margin w h : Int) (pos : Point)
    (hw : 2 * margin < w) (hh : 2 * margin < h) :
    cornerCharacterization margin w h pos ∧
    getResizeDirection edgeMargin 800 600 ⟨4, 4⟩ = some Dir.topLeft := by
  refine ⟨?_, by decide⟩
  unfold cornerCharacterization getResizeDirection
  by_cases hl : pos.x ≤ margin <;> by_cases hr : pos.x ≥ w - margin <;>
    by_cases ht : pos.y ≤ margin <;> by_cases hb : pos.y ≥ h - margin <;>
    simp only [hl, hr, ht, hb] <;> simp_all <;> omega

/-- Claim C1 witness: the amended theorem applied to margin 8 and an
800x600 window at position (4,4). -/
theorem classify_corner_iff_witness :
    (2 * (8 : Int) < 800 ∧ 2 * (8 : Int) < 600) ∧
    (cornerCharacterization 8 800 600 ⟨4, 4⟩ ∧
     getResizeDirection edgeMargin 800 600 ⟨4, 4⟩ = some Dir.topLeft) :=
  ⟨⟨by decide, by decide⟩,
   classify_corner_iff 8 800 600 ⟨4, 4⟩ (by decide) (by decide)⟩

/-- A single `_perform_resize` step with a direction containing "right"
leaves the width at `max (width + delta.x) minimumWidth`: no such
direction also contains "left", and the height/top adjustments do not
touch the width. -/
theorem performResize_width_of_hasRight (dir : Dir) (dp : Point) (r : Rect) (g : Point)
    (hd : dir.hasRight = true) :
    (performResize dir dp r g).1.width = max (r.width + (g.x - dp.x)) minimumWidth := by
  cases dir <;> simp_all [performResize, Rect.setWidth, Rect.setHeight, Rect.setTop,
    Dir.hasRight, Dir.hasLeft, Dir.hasBottom, Dir.hasTop]

/-- A single `_perform_resize` step with a direction containing "bottom"
leaves the height at `max (height + delta.y) minimumHeight`. -/
theorem performResize_height_of_hasBottom (dir : Dir) (dp : Point) (r : Rect) (g : Point)
    (hd : dir.hasBottom = true) :
    (performResize dir dp r g).1.height = max (r.height + (g.y - dp.y)) minimumHeight := by
  cases dir <;> simp_all [performResize, Rect.setWidth, Rect.setHeight, Rect.setLeft,
    Dir.hasRight, Dir.hasLeft, Dir.hasBottom, Dir.hasTop]

/-- Width stays at least `minimumWidth` across a whole resize session
whose direction contains "right". -/
theorem performResizeSeq_width_ge (dir : Dir) (hd : dir.hasRight = true) :
    ∀ (moves : List Point) (r : Rect) (dp : Point), r.width ≥ minimumWidth →
      (performResizeSeq dir (r, dp) moves).1.width ≥ minimumWidth := by
  intro moves
  induction moves with
  | nil => intro r dp hr; exact hr
  | cons g gs ih =>
      intro r dp hr
      have hstep : (performResize dir dp r g).1.width ≥ minimumWidth := by
        rw [performResize_width_of_hasRight dir dp r g hd]
        exact le_max_right _ _
      simpa [performResizeSeq, List.foldl_cons] using
        ih (performResize dir dp r g).1 (performResize dir dp r g).2 hstep

/-- Height stays at least `minimumHeight` across a whole resize session
whose direction contains "bottom". -/
theorem performResizeSeq_height_ge (dir : Dir) (hd : dir.hasBottom = true) :
    ∀ (moves : List Point) (r : Rect) (dp : Point), r.height ≥ minimumHeight →
      (performResizeSeq dir (r, dp) moves).1.height ≥ minimumHeight := by
  intro moves
  induction moves with
  | nil => intro r dp hr; exact hr
  | cons g gs ih =>
      intro r dp hr
      have hstep : (performResize dir dp r g).1.height ≥ minimumHeight := by
        rw [performResize_height_of_hasBottom dir dp r g hd]
        exact le_max_right _ _
      simpa [performResizeSeq, List.foldl_cons] using
        ih (performResize dir dp r g).1 (performResize dir dp r g).2 hstep

/-- Claim C2: starting from any geometry meeting the 800x600 minimum,
every sequence of `_perform_resize` steps whose direction contains
"right" keeps the width at least `minimumWidth` (800), and every sequence
whose direction contains "bottom" keeps the height at least
`minimumHeight` (600): each such step sets the dimension to
`max(dimension + delta, minimum)`. -/
theorem resizeSeq_min_bounds (dir : Dir) (rect : Rect) (dp : Point) (moves : List Point) :
    (dir.hasRight = true → rect.width ≥ minimumWidth →
       (performResizeSeq dir (rect, dp) moves).1.width ≥ minimumWidth) ∧
    (dir.hasBottom = true → rect.height ≥ minimumHeight →
       (performResizeSeq dir (rect, dp) moves).1.height ≥ minimumHeight) :=
  ⟨fun hd hw => performResizeSeq_width_ge dir hd moves rect dp hw,
   fun hd hh => performResizeSeq_height_ge dir hd moves rect dp hh⟩

/-- Claim C2 witness: the bottom-right direction on an 800x600 geometry
with two shrinking move events; both dimensions stay clamped at the
minimum. -/
theorem resizeSeq_min_bounds_witness :
    (Dir.hasRight Dir.bottomRight = true ∧ Dir.hasBottom Dir.bottomRight = true ∧
     (⟨0, 0, 800, 600⟩ : Rect).width ≥ minimumWidth ∧
     (⟨0, 0, 800, 600⟩ : Rect).height ≥ minimumHeight) ∧
    (performResizeSeq Dir.bottomRight (⟨0, 0, 800, 600⟩, ⟨0, 0⟩)
       [⟨-100, -50⟩, ⟨-200, -300⟩]).1.width ≥ minimumWidth ∧
    (performResizeSeq Dir.bottomRight (⟨0, 0, 800, 600⟩, ⟨0, 0⟩)
       [⟨-100, -50⟩, ⟨-200, -300⟩]).1.height ≥ minimumHeight :=
  ⟨⟨by decide, by decide, by decide, by decide⟩,
   (resizeSeq_min_bounds Dir.bottomRight ⟨0, 0, 800, 600⟩ ⟨0, 0⟩
      [⟨-100, -50⟩, ⟨-200, -300⟩]).1 (by decide) (by decide),
   (resizeSeq_min_bounds Dir.bottomRight ⟨0, 0, 800, 600⟩ ⟨0, 0⟩
      [⟨-100, -50⟩, ⟨-200, -300⟩]).2 (by decide) (by decide)⟩

/-- Claim C3: when the direction contains "left", `_perform_resize` sets
the left edge to `left + delta.x` while keeping the right edge
(`left + width`) fixed, with no minimum-width clamp; symmetrically a
direction containing "top" sets `top + delta.y` with the bottom edge
fixed and no minimum-height clamp.  Consequently concrete inputs produce
a width of 500 < 800 and a height of 400 < 600, below the configured
minimums. -/
theorem performResize_left_top_unclamped (dir : Dir) (dp : Point) (rect : Rect) (g : Point) :
    (dir.hasLeft = true →
       (performResize dir dp rect g).1.left = rect.left + (g.x - dp.x) ∧
       (performResize dir dp rect g).1.left + (performResize dir dp rect g).1.width
         = rect.left + rect.width) ∧
    (dir.hasTop = true →
       (performResize dir dp rect g).1.top = rect.top + (g.y - dp.y) ∧
       (performResize dir dp rect g).1.top + (performResize dir dp rect g).1.height
         = rect.top + rect.height) ∧
    ((performResize Dir.left ⟨0, 0⟩ ⟨0, 0, 800, 600⟩ ⟨300, 0⟩).1.width = 500 ∧
     (500 : Int) < minimumWidth) ∧
    ((performResize Dir.top ⟨0, 0⟩ ⟨0, 0, 800, 600⟩ ⟨0, 200⟩).1.height = 400 ∧
     (400 : Int) < minimumHeight) := by
  refine ⟨fun hd => ?_, fun hd => ?_, by decide, by decide⟩ <;>
    cases dir <;>
    simp_all [performResize, Rect.setWidth, Rect.setHeight, Rect.setLeft, Rect.setTop,
      Dir.hasRight, Dir.hasLeft, Dir.hasBottom, Dir.hasTop]

/-- Claim C3 witness: the top-left direction on an 800x600 geometry at
(0,0), dragged from anchor (0,0) to (300,100): the left edge moves to
300 with the right edge fixed at 800, and the top edge moves to 100 with
the bottom edge fixed at 600. -/
theorem performResize_left_top_unclamped_witness :
    (Dir.hasLeft Dir.topLeft = true ∧ Dir.hasTop Dir.topLeft = true) ∧
    ((performResize Dir.topLeft ⟨0, 0⟩ ⟨0, 0, 800, 600⟩ ⟨300, 100⟩).1.left
        = (⟨0, 0, 800, 600⟩ : Rect).left + ((300 : Int) - 0) ∧
     (performResize Dir.topLeft ⟨0, 0⟩ ⟨0, 0, 800, 600⟩ ⟨300, 100⟩).1.left
        + (performResize Dir.topLeft ⟨0, 0⟩ ⟨0, 0, 800, 600⟩ ⟨300, 100⟩).1.width
        = (⟨0, 0, 800, 600⟩ : Rect).left + (⟨0, 0, 800, 600⟩ : Rect).width) ∧
    ((performResize Dir.topLeft ⟨0, 0⟩ ⟨0, 0, 800, 600⟩ ⟨300, 100⟩).1.top
        = (⟨0, 0, 800, 600⟩ : Rect).top + ((100 : Int) - 0) ∧
     (performResize Dir.topLeft ⟨0, 0⟩ ⟨0, 0, 800, 600⟩ ⟨300, 100⟩).1.top
        + (performResize Dir.topLeft ⟨0, 0⟩ ⟨0, 0, 800, 600⟩ ⟨300, 100⟩).1.height
        = (⟨0, 0, 800, 600⟩ : Rect).top + (⟨0, 0, 800, 600⟩ : Rect).height) :=
  ⟨⟨by decide, by decide⟩,
   (performResize_left_top_unclamped Dir.topLeft ⟨0, 0⟩ ⟨0, 0, 800, 600⟩ ⟨300, 100⟩).1
     (by decide),
   (performResize_left_top_unclamped Dir.topLeft ⟨0, 0⟩ ⟨0, 0, 800, 600⟩ ⟨300, 100⟩).2.1
     (by decide)⟩

/-- Claim C4, counterexample: a title-bar move event handled with
`self.start = None` (the freshly constructed state) raises a `TypeError`
from `event.globalPos() - self.start` instead of being a silent no-op,
so "does not fail" is false for the title-bar handler. -/
theorem titlebar_move_none_counterexample :
    (tbMouseMove initApp ⟨10, 10⟩).error = some "TypeError" := by decide

/-- Claim C4 (amended): a mouse-move on the window frame with no active
resize session (`_resizing and _resize_direction` falsy) changes nothing
and raises nothing; a title-bar move with no recorded press anchor
(`start = None`) raises a `TypeError` rather than no-op — it performs no
move, and when the window is in the normal state it mutates nothing at
all before raising. -/
theorem move_without_session (s : MWState) (g l : Point) (t : AppState) (g2 : Point)
    (hs : (s.resizing && s.resizeDir.isSome) = false)
    (ht : t.start = none) :
    mainMouseMove s g l = (s, none) ∧
    (tbMouseMove t g2).error = some "TypeError" ∧
    (t.win.maximized = false → t.win.fullscreen = false → (tbMouseMove t g2).state = t) := by
  refine ⟨by simp [mainMouseMove, hs], ?_, ?_⟩
  · by_cases hm : t.win.maximized <;> by_cases hf : t.win.fullscreen <;>
      simp [tbMouseMove, hm, hf, ht]
  · intro hm hf
    simp [tbMouseMove, hm, hf, ht]

/-- Claim C4 witness: the amended theorem at the freshly constructed
frame and title-bar states. -/
theorem move_without_session_witness :
    ((initMW.resizing && initMW.resizeDir.isSome) = false ∧ initApp.start = none) ∧
    (mainMouseMove initMW ⟨5, 5⟩ ⟨1, 1⟩ = (initMW, none) ∧
     (tbMouseMove initApp ⟨5, 5⟩).error = some "TypeError" ∧
     (initApp.win.maximized = false → initApp.win.fullscreen = false →
        (tbMouseMove initApp ⟨5, 5⟩).state = initApp)) :=
  ⟨⟨by decide, by decide⟩,
   move_without_session initMW ⟨5, 5⟩ ⟨1, 1⟩ initApp ⟨5, 5⟩ (by decide) (by decide)⟩

/-- Claim C5, counterexample: after maximize(), fullscreen(), and a press
of the maximize/restore toggle, the window is maximized, not restored:
`showFullScreen` cleared the Maximized flag, so the toggle took its
maximize branch.  This contradicts the claimed final state
`isMaximized = false`. -/
theorem max_fs_toggle_counterexample :
    (showParentMaximized (showParentFullScreen (showParentMaximized initApp))).win.maximized
      = true := by decide

/-- Claim C5 (amended): maximize() then fullscreen() then pressing the
maximize/restore toggle ends with `isMaximized = true` and
`isFullScreen = false`, the maximize icon in its active/restore variant,
and the fullscreen icon still in its active/exit variant: entering
fullscreen clears the Maximized flag, so the toggle re-maximizes instead
of restoring, and neither activation branch resets the other button's
icon. -/
theorem max_fs_toggle_scenario :
    (showParentMaximized (showParentFullScreen (showParentMaximized initApp))).win.maximized
      = true ∧
    (showParentMaximized (showParentFullScreen (showParentMaximized initApp))).win.fullscreen
      = false ∧
    maxIconActive (showParentMaximized (showParentFullScreen (showParentMaximized initApp)))
      = true ∧
    fsIconActive (showParentMaximized (showParentFullScreen (showParentMaximized initApp)))
      = true := by decide

/-- Claim C6: evaluation at the failing input.  Starting from the
freshly constructed state, clicking maximize and then fullscreen leaves
BOTH button icons in their active variants simultaneously: the
fullscreen activation branch sets its own icon but never resets the
maximize button's, contradicting the claimed mutual-normalization
invariant. -/
theorem both_icons_active_after_max_then_fs :
    maxIconActive (runChromeOps initApp [.clickMaximize, .clickFullScreen]) = true ∧
    fsIconActive (runChromeOps initApp [.clickMaximize, .clickFullScreen]) = true ∧
    (runChromeOps initApp [.clickMaximize, .clickFullScreen]).win.maximized = false ∧
    (runChromeOps initApp [.clickMaximize, .clickFullScreen]).win.fullscreen = true := by
  decide

/-- A title-bar move on a window in the normal state with a recorded
anchor issues no `showNormal()` call, raises nothing, moves the window
by the incremental delta and re-anchors at the current global position. -/
theorem tbMouseMove_normal (s : AppState) (g a : Point)
    (hm : s.win.maximized = false) (hf : s.win.fullscreen = false)
    (ha : s.start = some a) :
    tbMouseMove s g =
      { state := { s with win := s.win.move (s.win.x + (g.x - a.x)) (s.win.y + (g.y - a.y))
                        , start := some g }
      , showNormalCalls := 0
      , error := none } := by
  simp [tbMouseMove, hm, hf, ha]

/-- Folding further move events over a normal-state, anchored drag
accumulator adds no `showNormal()` calls. -/
theorem tbDrag_foldl_no_restore (rest : List Point) :
    ∀ (t : AppState) (c : Nat) (a : Point),
      t.win.maximized = false → t.win.fullscreen = false → t.start = some a →
      (rest.foldl tbDragStep (t, c)).2 = c := by
  induction rest with
  | nil => intro t c a _ _ _; rfl
  | cons g gs ih =>
      intro t c a hm hf ha
      rw [List.foldl_cons]
      have hstep : tbDragStep (t, c) g =
          ({ t with win := t.win.move (t.win.x + (g.x - a.x)) (t.win.y + (g.y - a.y))
                  , start := some g }, c) := by
        simp [tbDragStep, tbMouseMove_normal t g a hm hf ha]
      rw [hstep]
      exact ih _ c g (by simp [WinState.move, hm]) (by simp [WinState.move, hf]) rfl

/-- Claim C7: a title-bar drag that begins while the window is maximized
or fullscreen issues exactly one `showNormal()` call, during the first
move event (whose handler restores before computing and applying the
move delta, leaving the window un-maximized, un-fullscreened, and moved
by `g1 - g0` from its pre-drag position); the whole drag totals exactly
one restore, and every move handled in the normal state with a recorded
anchor issues no restore and only applies the incremental delta,
re-anchoring at the current global position. -/
theorem drag_restores_once (s : AppState) (g0 g1 : Point) (rest : List Point)
    (h : s.win.maximized = true ∨ s.win.fullscreen = true) :
    ((tbMouseMove (tbMousePress s g0) g1).showNormalCalls = 1 ∧
     (tbMouseMove (tbMousePress s g0) g1).error = none ∧
     (tbMouseMove (tbMousePress s g0) g1).state.win.maximized = false ∧
     (tbMouseMove (tbMousePress s g0) g1).state.win.fullscreen = false ∧
     (tbMouseMove (tbMousePress s g0) g1).state.win.x = s.win.x + (g1.x - g0.x) ∧
     (tbMouseMove (tbMousePress s g0) g1).state.win.y = s.win.y + (g1.y - g0.y) ∧
     (tbMouseMove (tbMousePress s g0) g1).state.start = some g1) ∧
    (tbDrag s g0 (g1 :: rest)).2 = 1 ∧
    (∀ (t : AppState) (g a : Point),
       t.win.maximized = false → t.win.fullscreen = false → t.start = some a →
       (tbMouseMove t g).showNormalCalls = 0 ∧
       (tbMouseMove t g).error = none ∧
       (tbMouseMove t g).state.win.x = t.win.x + (g.x - a.x) ∧
       (tbMouseMove t g).state.win.y = t.win.y + (g.y - a.y) ∧
       (tbMouseMove t g).state.start = some g) := by
  have hguard : (s.win.maximized || s.win.fullscreen) = true := by
    rcases h with h | h <;> simp [h]
  have hfirst : (tbMouseMove (tbMousePress s g0) g1).showNormalCalls = 1 ∧
      (tbMouseMove (tbMousePress s g0) g1).error = none ∧
      (tbMouseMove (tbMousePress s g0) g1).state.win.maximized = false ∧
      (tbMouseMove (tbMousePress s g0) g1).state.win.fullscreen = false ∧
      (tbMouseMove (tbMousePress s g0) g1).state.win.x = s.win.x + (g1.x - g0.x) ∧
      (tbMouseMove (tbMousePress s g0) g1).state.win.y = s.win.y + (g1.y - g0.y) ∧
      (tbMouseMove (tbMousePress s g0) g1).state.start = some g1 := by
    simp [tbMousePress, tbMouseMove, hguard, WinState.showNormal, WinState.move]
  refine ⟨hfirst, ?_, ?_⟩
  · unfold tbDrag
    rw [List.foldl_cons]
    have hstep : tbDragStep (tbMousePress s g0, 0) g1 =
        ((tbMouseMove (tbMousePress s g0) g1).state, 1) := by
      simp [tbDragStep, hfirst.1]
    rw [hstep]
    exact tbDrag_foldl_no_restore rest _ 1 g1 hfirst.2.2.1 hfirst.2.2.2.1
      hfirst.2.2.2.2.2.2
  · intro t g a hm hf ha
    simp [tbMouseMove_normal t g a hm hf ha, WinState.move]

/-- A concrete maximized start state for exercising a drag. -/
def maxApp : AppState :=
  { initApp with win := { initApp.win with maximized := true } }

/-- Claim C7 witness: a drag on `maxApp` pressed at (0,0) with moves at
(5,3) then (7,4): the first move issues the single restore and the whole
drag totals one `showNormal()` call. -/
theorem drag_restores_once_witness :
    (maxApp.win.maximized = true ∨ maxApp.win.fullscreen = true) ∧
    (tbMouseMove (tbMousePress maxApp ⟨0, 0⟩) ⟨5, 3⟩).showNormalCalls = 1 ∧
    (tbDrag maxApp ⟨0, 0⟩ [⟨5, 3⟩, ⟨7, 4⟩]).2 = 1 :=
  ⟨Or.inl (by decide),
   (drag_restores_once maxApp ⟨0, 0⟩ ⟨5, 3⟩ [⟨7, 4⟩] (Or.inl (by decide))).1.1,
   (drag_restores_once maxApp ⟨0, 0⟩ ⟨5, 3⟩ [⟨7, 4⟩] (Or.inl (by decide))).2.1⟩

/-- Claim C8: for every prior state and whichever button is released,
`MainWindow.mouseReleaseEvent` sets `_resizing` to `False`,
`_resize_direction` to `None` and the cursor to the arrow, leaving the
geometry and `_drag_pos` untouched. -/
theorem release_clears_session (s : MWState) (b : MouseButton) :
    (mainMouseRelease s b).resizing = false ∧
    (mainMouseRelease s b).resizeDir = none ∧
    (mainMouseRelease s b).cursor = CursorShape.arrow ∧
    (mainMouseRelease s b).rect = s.rect ∧
    (mainMouseRelease s b).dragPos = s.dragPos :=
  ⟨rfl, rfl, rfl, rfl, rfl⟩

/-- Claim C9: the File-menu quit action and the close button are wired to
the same handler, `CustomTitleBar.closeParent`, so the two handlers are
equal as functions, and invoking either closes the parent window. -/
theorem quit_action_equals_close_button :
    actionQuitCallback = closeButtonCallback ∧
    ∀ s : AppState, (actionQuitCallback s).win.closed = true :=
  ⟨rfl, fun _ => rfl⟩

/-- Claim C10: a press of any non-left button leaves `_drag_pos`,
`_resizing` and `_resize_direction` (indeed the whole state) unchanged. -/
theorem non_left_press_no_effect (s : MWState) (b : MouseButton) (g l : Point)
    (hb : b ≠ MouseButton.leftButton) :
    (mainMousePress s b g l).dragPos = s.dragPos ∧
    (mainMousePress s b g l).resizing = s.resizing ∧
    (mainMousePress s b g l).resizeDir = s.resizeDir := by
  simp [mainMousePress, hb]

/-- Claim C10 witness: a right-button press on the freshly constructed
window. -/
theorem non_left_press_no_effect_witness :
    MouseButton.rightButton ≠ MouseButton.leftButton ∧
    ((mainMousePress initMW .rightButton ⟨5, 5⟩ ⟨4, 4⟩).dragPos = initMW.dragPos ∧
     (mainMousePress initMW .rightButton ⟨5, 5⟩ ⟨4, 4⟩).resizing = initMW.resizing ∧
     (mainMousePress initMW .rightButton ⟨5, 5⟩ ⟨4, 4⟩).resizeDir = initMW.resizeDir) :=
  ⟨by decide,
   non_left_press_no_effect initMW .rightButton ⟨5, 5⟩ ⟨4, 4⟩ (by decide)⟩
